import Mathlib

/-
Verification of the teleoperation RobotPC system against its specification.

The Lean definitions below are shallow embeddings of the Python sources:
  * piper_sdk_interface.py        (PiperSDKInterface: set_joint_positions,
                                   get_status, enable_motors limit fallback)
  * robots/piper/piper_sdk_interface.py (same arithmetic, no limit fallback)
  * piper_robot.py                (minimal Piper.send_action, zero defaults)
  * robots/piper/piper.py         (relay Piper.send_action with last-valid cache)
  * host_broadcast.py             (relay main loop, one cycle)
  * motor_enable_listener.py      (needs_enable classification, zombie
                                   detection, partial/full enable engine)

Python float arithmetic is modelled as exact rational arithmetic over ℚ;
Python int() truncation toward zero is modelled by pyInt below.
-/

/-- Vec7 models the 7-element position lists used throughout the sources
(6 arm joints and a gripper). -/
structure Vec7 (α : Type) where
  j0 : α
  j1 : α
  j2 : α
  j3 : α
  j4 : α
  j5 : α
  j6 : α
deriving Repr, DecidableEq

/-- Index a Vec7 by a joint number 0..6. -/
def Vec7.get {α : Type} (v : Vec7 α) (k : Fin 7) : α :=
  match k with
  | 0 => v.j0
  | 1 => v.j1
  | 2 => v.j2
  | 3 => v.j3
  | 4 => v.j4
  | 5 => v.j5
  | 6 => v.j6

/-- Python int() applied to an exact rational: truncation toward zero. -/
def pyInt (q : ℚ) : ℤ := Int.tdiv q.num q.den

/-- Affine joint mapping from piper_sdk_interface.py line 62 (and
robots/piper/piper_sdk_interface.py line 55):
min_pos + (max_pos - min_pos) * (pos + 100) / 200. -/
def jointAffine (mn mx v : ℚ) : ℚ := mn + (mx - mn) * (v + 100) / 200

/-- Affine gripper mapping from piper_sdk_interface.py line 74 (and
robots/piper/piper_sdk_interface.py line 61):
min_pos + (max_pos - min_pos) * pos / 100. -/
def gripperAffine (mn mx v : ℚ) : ℚ := mn + (mx - mn) * v / 100

/-- PiperSDKInterface.set_joint_positions (piper_sdk_interface.py lines 49-112;
robots/piper/piper_sdk_interface.py lines 47-75 is the identical computation):
scale the six joints through jointAffine, multiply by 100, append the gripper
scaled through gripperAffine and multiplied by 10000, truncate everything to
integers, inverting joints 0, 3 and 5 (the code computes int(-x), and the
gripper value int(int(x)) collapses to int(x)).  The returned Vec7 holds the
wire integers handed to JointCtrl and GripperCtrl.  There is no clamping
anywhere in this function. -/
def setJointPositions (minPos maxPos positions : Vec7 ℚ) : Vec7 ℤ :=
  let s0 := 100 * jointAffine minPos.j0 maxPos.j0 positions.j0
  let s1 := 100 * jointAffine minPos.j1 maxPos.j1 positions.j1
  let s2 := 100 * jointAffine minPos.j2 maxPos.j2 positions.j2
  let s3 := 100 * jointAffine minPos.j3 maxPos.j3 positions.j3
  let s4 := 100 * jointAffine minPos.j4 maxPos.j4 positions.j4
  let s5 := 100 * jointAffine minPos.j5 maxPos.j5 positions.j5
  let g := gripperAffine minPos.j6 maxPos.j6 positions.j6
  ⟨pyInt (-s0), pyInt s1, pyInt s2, pyInt (-s3), pyInt s4, pyInt (-s5),
    pyInt (g * 10000)⟩

/-- Truncation toward zero commutes with negation (so the code form
int(-x) equals the spec form -(int x)). -/
theorem pyInt_neg (q : ℚ) : pyInt (-q) = -(pyInt q) := by
  simp [pyInt, Rat.neg_num, Rat.neg_den, Int.neg_tdiv]

/-- Normalized 0 lands at the midpoint of the joint range. -/
theorem jointAffine_zero (mn mx : ℚ) : jointAffine mn mx 0 = (mn + mx) / 2 := by
  unfold jointAffine; ring

/-- Normalized 50 lands at the midpoint of the gripper range. -/
theorem gripperAffine_fifty (mn mx : ℚ) :
    gripperAffine mn mx 50 = (mn + mx) / 2 := by
  unfold gripperAffine; ring

/-- C6: for every 7-element normalized command and limits, set_joint_positions
computes physical = min + (max - min) * (normalized + 100) / 200 for each of
the first six joints, multiplies by the fixed wire scale (100, for 0.001
degree units from 0.1 degree limits), truncates to integer, and negates the
results at joint indices 0, 3 and 5; the gripper is computed as
min + (max - min) * normalized / 100, scaled by 10000 and truncated. -/
theorem setJointPositions_affine_formula (mn mx p : Vec7 ℚ) :
    setJointPositions mn mx p =
      ⟨-(pyInt (100 * jointAffine mn.j0 mx.j0 p.j0)),
        pyInt (100 * jointAffine mn.j1 mx.j1 p.j1),
        pyInt (100 * jointAffine mn.j2 mx.j2 p.j2),
        -(pyInt (100 * jointAffine mn.j3 mx.j3 p.j3)),
        pyInt (100 * jointAffine mn.j4 mx.j4 p.j4),
        -(pyInt (100 * jointAffine mn.j5 mx.j5 p.j5)),
        pyInt (gripperAffine mn.j6 mx.j6 p.j6 * 10000)⟩ := by
  simp [setJointPositions, pyInt_neg]

/-- Bounds of the joint affine map on the declared domain. -/
theorem jointAffine_bounds (mn mx v : ℚ) (hlim : mn ≤ mx)
    (hlo : -100 ≤ v) (hhi : v ≤ 100) :
    mn ≤ jointAffine mn mx v ∧ jointAffine mn mx v ≤ mx := by
  unfold jointAffine
  constructor
  · nlinarith [mul_nonneg (sub_nonneg.mpr hlim) (by linarith : (0:ℚ) ≤ v + 100)]
  · nlinarith [mul_nonneg (sub_nonneg.mpr hlim) (by linarith : (0:ℚ) ≤ 100 - v)]

/-- Bounds of the gripper affine map on the declared domain. -/
theorem gripperAffine_bounds (mn mx v : ℚ) (hlim : mn ≤ mx)
    (hlo : 0 ≤ v) (hhi : v ≤ 100) :
    mn ≤ gripperAffine mn mx v ∧ gripperAffine mn mx v ≤ mx := by
  unfold gripperAffine
  constructor
  · nlinarith [mul_nonneg (sub_nonneg.mpr hlim) hlo]
  · nlinarith [mul_nonneg (sub_nonneg.mpr hlim) (by linarith : (0:ℚ) ≤ 100 - v)]

/-- C5 counterexample: set_joint_positions performs no clamping and reports no
clamp event.  With limits [0, 100] on every joint and the out-of-range
normalized command 300 on joint 0, the physical value the code computes and
wire-encodes is 200, strictly above the limit maximum 100; the wire value sent
is -(100 * 200) = -20000, the encoding of the unclamped 200. -/
theorem setJointPositions_no_clamp_counterexample :
    jointAffine 0 100 300 = 200 ∧
    ¬(jointAffine 0 100 300 ≤ 100) ∧
    (setJointPositions ⟨0, 0, 0, 0, 0, 0, 0⟩ ⟨100, 100, 100, 100, 100, 100, 100⟩
        ⟨300, 0, 0, 0, 0, 0, 0⟩).j0 = -20000 := by
  refine ⟨by norm_num [jointAffine], by norm_num [jointAffine], ?_⟩
  show pyInt (-(100 * jointAffine 0 100 300)) = -20000
  rw [show (-(100 * jointAffine 0 100 300) : ℚ) = -20000 by norm_num [jointAffine]]
  show Int.tdiv (-20000 : ℚ).num (-20000 : ℚ).den = -20000
  norm_num

/-- C5 amended: set_joint_positions never clamps and never reports a clamp
event; each physical value it computes lies within [min, max] only because,
for commands inside the declared normalized domain (joints in [-100, 100],
gripper in [0, 100]) and limits with min <= max, the affine maps themselves
stay inside the interval.  Out-of-domain commands produce out-of-range
physical values (see the counterexample). -/
theorem setJointPositions_in_range (mn mx p : Vec7 ℚ)
    (hlim : ∀ k : Fin 7, mn.get k ≤ mx.get k)
    (hdom : ∀ k : Fin 7, (k : ℕ) < 6 → -100 ≤ p.get k ∧ p.get k ≤ 100)
    (hg : 0 ≤ p.j6 ∧ p.j6 ≤ 100) :
    (∀ k : Fin 7, (k : ℕ) < 6 →
      mn.get k ≤ jointAffine (mn.get k) (mx.get k) (p.get k) ∧
      jointAffine (mn.get k) (mx.get k) (p.get k) ≤ mx.get k) ∧
    (mn.j6 ≤ gripperAffine mn.j6 mx.j6 p.j6 ∧
      gripperAffine mn.j6 mx.j6 p.j6 ≤ mx.j6) := by
  constructor
  · intro k hk
    exact jointAffine_bounds _ _ _ (hlim k) (hdom k hk).1 (hdom k hk).2
  · exact gripperAffine_bounds _ _ _ (hlim 6) hg.1 hg.2

/-- Witness for the amended C5 theorem at a concrete in-domain command. -/
theorem setJointPositions_in_range_witness :
    (∀ k : Fin 7, (k : ℕ) < 6 →
      (Vec7.mk (0:ℚ) 0 0 0 0 0 0).get k ≤
        jointAffine ((Vec7.mk (0:ℚ) 0 0 0 0 0 0).get k)
          ((Vec7.mk (100:ℚ) 100 100 100 100 100 100).get k)
          ((Vec7.mk (50:ℚ) 50 50 50 50 50 50).get k) ∧
      jointAffine ((Vec7.mk (0:ℚ) 0 0 0 0 0 0).get k)
          ((Vec7.mk (100:ℚ) 100 100 100 100 100 100).get k)
          ((Vec7.mk (50:ℚ) 50 50 50 50 50 50).get k) ≤
        (Vec7.mk (100:ℚ) 100 100 100 100 100 100).get k) ∧
    ((Vec7.mk (0:ℚ) 0 0 0 0 0 0).j6 ≤
      gripperAffine (Vec7.mk (0:ℚ) 0 0 0 0 0 0).j6
        (Vec7.mk (100:ℚ) 100 100 100 100 100 100).j6
        (Vec7.mk (50:ℚ) 50 50 50 50 50 50).j6 ∧
      gripperAffine (Vec7.mk (0:ℚ) 0 0 0 0 0 0).j6
        (Vec7.mk (100:ℚ) 100 100 100 100 100 100).j6
        (Vec7.mk (50:ℚ) 50 50 50 50 50 50).j6 ≤
      (Vec7.mk (100:ℚ) 100 100 100 100 100 100).j6) :=
  setJointPositions_in_range _ _ _
    (by intro k; fin_cases k <;> norm_num [Vec7.get])
    (by intro k _; fin_cases k <;> norm_num [Vec7.get])
    (by norm_num)

/-- Vec6 models the six per-motor values read from the driver
(GetAllMotorAngleLimitMaxSpd motor[1:7]). -/
structure Vec6 (α : Type) where
  a0 : α
  a1 : α
  a2 : α
  a3 : α
  a4 : α
  a5 : α
deriving Repr, DecidableEq

/-- Default Piper joint minimum limits in 0.1 degree units
(piper_sdk_interface.py line 219). -/
def defaultMinPos : Vec7 ℚ := ⟨-1500, 0, -1700, -1000, -700, -1200, 0⟩

/-- Default Piper joint maximum limits in 0.1 degree units
(piper_sdk_interface.py line 220). -/
def defaultMaxPos : Vec7 ℚ := ⟨1500, 1800, 0, 1000, 700, 1200, 10⟩

/-- Limit-table construction of PiperSDKInterface.enable_motors, step 3
(piper_sdk_interface.py lines 196-220): the six driver-read limits are
extended with gripper limits [0, 10]; if every one of the six read minima and
six read maxima is zero, the documented default tables are substituted for
both. -/
def enableMotorsLimits (rmin rmax : Vec6 ℚ) : Vec7 ℚ × Vec7 ℚ :=
  let minPos : Vec7 ℚ := ⟨rmin.a0, rmin.a1, rmin.a2, rmin.a3, rmin.a4, rmin.a5, 0⟩
  let maxPos : Vec7 ℚ := ⟨rmax.a0, rmax.a1, rmax.a2, rmax.a3, rmax.a4, rmax.a5, 10⟩
  if rmin.a0 = 0 ∧ rmin.a1 = 0 ∧ rmin.a2 = 0 ∧ rmin.a3 = 0 ∧ rmin.a4 = 0 ∧
      rmin.a5 = 0 ∧ rmax.a0 = 0 ∧ rmax.a1 = 0 ∧ rmax.a2 = 0 ∧ rmax.a3 = 0 ∧
      rmax.a4 = 0 ∧ rmax.a5 = 0 then
    (defaultMinPos, defaultMaxPos)
  else
    (minPos, maxPos)

/-- C7: when the limits read from the driver are all zero for all six joints,
the documented default limit table is substituted for both min and max, and a
subsequent normalized command of 0 maps each joint to the midpoint of its
default range.  All divisions in the mapping are by the literal constant 200,
so no division by zero (and, in the exact rational model of the float
arithmetic, no NaN) can arise even before substitution. -/
theorem enableMotorsLimits_degenerate_fallback (rmin rmax : Vec6 ℚ)
    (hmin : rmin = ⟨0, 0, 0, 0, 0, 0⟩) (hmax : rmax = ⟨0, 0, 0, 0, 0, 0⟩) :
    enableMotorsLimits rmin rmax = (defaultMinPos, defaultMaxPos) ∧
    ∀ k : Fin 7, (k : ℕ) < 6 →
      jointAffine (defaultMinPos.get k) (defaultMaxPos.get k) 0 =
        (defaultMinPos.get k + defaultMaxPos.get k) / 2 := by
  subst hmin hmax
  refine ⟨by simp [enableMotorsLimits], ?_⟩
  intro k _
  exact jointAffine_zero _ _

/-- Witness for C7 at the concrete all-zero limit read. -/
theorem enableMotorsLimits_degenerate_fallback_witness :
    enableMotorsLimits ⟨0, 0, 0, 0, 0, 0⟩ ⟨0, 0, 0, 0, 0, 0⟩ =
      (defaultMinPos, defaultMaxPos) ∧
    ∀ k : Fin 7, (k : ℕ) < 6 →
      jointAffine (defaultMinPos.get k) (defaultMaxPos.get k) 0 =
        (defaultMinPos.get k + defaultMaxPos.get k) / 2 :=
  enableMotorsLimits_degenerate_fallback ⟨0, 0, 0, 0, 0, 0⟩ ⟨0, 0, 0, 0, 0, 0⟩
    rfl rfl

/-- Raw per-joint message block returned by GetArmJointMsgs. -/
structure ArmJointMsgs where
  joint1 : ℤ
  joint2 : ℤ
  joint3 : ℤ
  joint4 : ℤ
  joint5 : ℤ
  joint6 : ℤ
deriving Repr, DecidableEq

/-- Raw gripper message block returned by GetArmGripperMsgs. -/
structure GripperMsgs where
  grippersAngle : ℤ
deriving Repr, DecidableEq

/-- PiperSDKInterface.get_status (piper_sdk_interface.py lines 114-134;
robots/piper/piper_sdk_interface.py lines 77-94 is identical): the observation
dictionary joint_k.pos is the raw driver value joint_(k+1) and the raw gripper
angle, with no unit conversion and no inverse of the command-side affine
mapping. -/
def getStatus (j : ArmJointMsgs) (g : GripperMsgs) : Vec7 ℤ :=
  ⟨j.joint1, j.joint2, j.joint3, j.joint4, j.joint5, j.joint6, g.grippersAngle⟩

/-- Modelled from the spec: toNormalized, the inverse of the command-side
affine joint mapping (spec section 4.1 / section 8); this function does not
exist anywhere in the source and is used only to compare against getStatus. -/
def specToNormalized (mn mx phys : ℚ) : ℚ := (phys - mn) * 200 / (mx - mn) - 100

/-- Ideal echo driver: reports back exactly the wire values last commanded. -/
def driverEcho (w : Vec7 ℤ) : ArmJointMsgs × GripperMsgs :=
  (⟨w.j0, w.j1, w.j2, w.j3, w.j4, w.j5⟩, ⟨w.j6⟩)

/-- Round trip through the code: command a normalized Vec7, let the driver
echo the wire values, and read them back through get_status. -/
def roundTripObs (mn mx p : Vec7 ℚ) : Vec7 ℤ :=
  getStatus (driverEcho (setJointPositions mn mx p)).1
    (driverEcho (setJointPositions mn mx p)).2

/-- C8 counterexample: with limits (0, 100) on every joint, commanding
normalized 50 on joint 1 produces wire value 7500, and the observation path
reports 7500 back, not 50: get_status applies no inverse mapping.  The
mathematical inverse of the affine map would recover 50 from the physical
value 75, and the error 7450 is far beyond any wire-truncation quantization
(one wire unit is 0.02 in normalized terms for this range). -/
theorem getStatus_roundtrip_counterexample :
    (roundTripObs ⟨0, 0, 0, 0, 0, 0, 0⟩ ⟨100, 100, 100, 100, 100, 100, 100⟩
        ⟨0, 50, 0, 0, 0, 0, 0⟩).j1 = 7500 ∧
    specToNormalized 0 100 75 = 50 ∧
    ¬((7500 : ℚ) - 50 ≤ 1) := by
  refine ⟨?_, by norm_num [specToNormalized], by norm_num⟩
  show pyInt (100 * jointAffine 0 100 50) = 7500
  rw [show (100 * jointAffine 0 100 50 : ℚ) = 7500 by norm_num [jointAffine]]
  show Int.tdiv (7500 : ℚ).num (7500 : ℚ).den = 7500
  norm_num

/-- C8 amended: the observation path applies no mapping at all: get_status
returns the driver-reported values unchanged (only re-keyed, joint k taking
driver joint k+1), so under an ideal echo driver the round trip yields the
commanded wire integer, e.g. pyInt (100 * jointAffine ...) for joint 1, not
the original normalized value. -/
theorem getStatus_raw_identity (j : ArmJointMsgs) (g : GripperMsgs)
    (mn mx p : Vec7 ℚ) :
    getStatus j g =
      ⟨j.joint1, j.joint2, j.joint3, j.joint4, j.joint5, j.joint6,
        g.grippersAngle⟩ ∧
    (roundTripObs mn mx p).j1 = pyInt (100 * jointAffine mn.j1 mx.j1 p.j1) := by
  exact ⟨rfl, rfl⟩

/-- Python dict.get with a default, over an action dictionary modelled as a
partial map from key strings to normalized values. -/
def pyGet (a : String → Option ℚ) (key : String) (dflt : ℚ) : ℚ :=
  (a key).getD dflt

/-- Key names that address joint k in both Piper.send_action variants
(piper_robot.py lines 60-68 and robots/piper/piper.py lines 106-114): a named
teleop key where one exists, plus the joint_k.pos alternative; joint 3 has
only the alternative name. -/
def jointActionKeys (k : Fin 7) : List String :=
  match k with
  | 0 => ["shoulder_pan.pos", "joint_0.pos"]
  | 1 => ["shoulder_lift.pos", "joint_1.pos"]
  | 2 => ["elbow_flex.pos", "joint_2.pos"]
  | 3 => ["joint_3.pos"]
  | 4 => ["wrist_flex.pos", "joint_4.pos"]
  | 5 => ["wrist_roll.pos", "joint_5.pos"]
  | 6 => ["gripper.pos", "joint_6.pos"]

/-- Minimal Piper.send_action (piper_robot.py lines 53-73): build the
positions list with constant defaults 0 for joints 0-5 and 50 for the gripper
whenever both keys for a joint are absent; no validity check and no cache.
Returns none when not connected (the code raises RuntimeError). -/
def sendActionMinimal (connected : Bool) (a : String → Option ℚ) :
    Option (Vec7 ℚ) :=
  if connected then
    some ⟨pyGet a "shoulder_pan.pos" (pyGet a "joint_0.pos" 0),
          pyGet a "shoulder_lift.pos" (pyGet a "joint_1.pos" 0),
          pyGet a "elbow_flex.pos" (pyGet a "joint_2.pos" 0),
          pyGet a "joint_3.pos" 0,
          pyGet a "wrist_flex.pos" (pyGet a "joint_4.pos" 0),
          pyGet a "wrist_roll.pos" (pyGet a "joint_5.pos" 0),
          pyGet a "gripper.pos" (pyGet a "joint_6.pos" 50)⟩
  else none

/-- C10: in the top-level single-arm variant piper_robot.Piper.send_action, a
missing joint key among joints 0-5 is commanded to normalized 0 and a missing
gripper key to normalized 50, on every call; under the affine maps these are
the range midpoint for a joint and the half-open (midpoint) position for the
gripper. -/
theorem sendActionMinimal_defaults (a : String → Option ℚ) (k : Fin 7)
    (habs : ∀ s ∈ jointActionKeys k, a s = none) :
    ∃ p : Vec7 ℚ, sendActionMinimal true a = some p ∧
      p.get k = (if (k : ℕ) = 6 then 50 else 0) ∧
      (∀ mn mx : ℚ,
        ((k : ℕ) < 6 → jointAffine mn mx (p.get k) = (mn + mx) / 2) ∧
        ((k : ℕ) = 6 → gripperAffine mn mx (p.get k) = (mn + mx) / 2)) := by
  refine ⟨_, rfl, ?_, ?_⟩ <;>
    fin_cases k <;>
      simp_all [jointActionKeys, Vec7.get, pyGet, jointAffine_zero,
        gripperAffine_fifty]

/-- Witness for C10: the empty action commands joint 0 to normalized 0. -/
theorem sendActionMinimal_defaults_witness :
    ∃ p : Vec7 ℚ, sendActionMinimal true (fun _ => none) = some p ∧
      p.get 0 = (if ((0 : Fin 7) : ℕ) = 6 then 50 else 0) ∧
      (∀ mn mx : ℚ,
        (((0 : Fin 7) : ℕ) < 6 →
          jointAffine mn mx (p.get 0) = (mn + mx) / 2) ∧
        (((0 : Fin 7) : ℕ) = 6 →
          gripperAffine mn mx (p.get 0) = (mn + mx) / 2)) :=
  sendActionMinimal_defaults (fun _ => none) 0 (by intro s _; rfl)

/-- Named teleop keys recognized by the relay arm variant
(robots/piper/piper.py lines 80-81). -/
def expectedActionKeys : List String :=
  ["shoulder_pan.pos", "shoulder_lift.pos", "elbow_flex.pos",
   "wrist_flex.pos", "wrist_roll.pos", "gripper.pos"]

/-- Alternative joint_i.pos keys recognized by the relay arm variant
(robots/piper/piper.py line 82). -/
def altActionKeys : List String :=
  ["joint_0.pos", "joint_1.pos", "joint_2.pos", "joint_3.pos",
   "joint_4.pos", "joint_5.pos", "joint_6.pos"]

/-- Validity check of robots/piper/piper.py lines 84-90: at least one
recognized key must be present, otherwise the action is ignored. -/
def hasValidKeys (a : String → Option ℚ) : Bool :=
  expectedActionKeys.any (fun s => (a s).isSome) ||
    altActionKeys.any (fun s => (a s).isSome)

/-- Outcome of the relay arm send_action. -/
inductive SendOutcome where
  | errNotConnected
  | ignored
  | applied (positions : Vec7 ℚ)
deriving Repr, DecidableEq

/-- Relay arm Piper.send_action (robots/piper/piper.py lines 69-122): raise
when disconnected; ignore actions with no recognized key; otherwise merge the
action over the last-valid cache (initializing the cache from the current
observation, or from zeros if that read fails, when it is still None), send
the merged positions and store them back as the new cache.  The pair returned
is the outcome together with the cache after the call. -/
def sendActionRelayArm (connected : Bool) (lastValid : Option (Vec7 ℚ))
    (obsRead : Option (Vec7 ℚ)) (a : String → Option ℚ) :
    SendOutcome × Option (Vec7 ℚ) :=
  if ¬connected then (.errNotConnected, lastValid)
  else if ¬hasValidKeys a then (.ignored, lastValid)
  else
    let lv : Vec7 ℚ :=
      match lastValid with
      | some lv => lv
      | none =>
        match obsRead with
        | some o => o
        | none => ⟨0, 0, 0, 0, 0, 0, 0⟩
    let positions : Vec7 ℚ :=
      ⟨pyGet a "shoulder_pan.pos" (pyGet a "joint_0.pos" lv.j0),
       pyGet a "shoulder_lift.pos" (pyGet a "joint_1.pos" lv.j1),
       pyGet a "elbow_flex.pos" (pyGet a "joint_2.pos" lv.j2),
       pyGet a "joint_3.pos" lv.j3,
       pyGet a "wrist_flex.pos" (pyGet a "joint_4.pos" lv.j4),
       pyGet a "wrist_roll.pos" (pyGet a "joint_5.pos" lv.j5),
       pyGet a "gripper.pos" (pyGet a "joint_6.pos" lv.j6)⟩
    (.applied positions, some positions)

/-- C1: for every partial command applied through the relay arm that misses
the keys for joint k, the positions Vec7 actually sent to the driver carries,
at index k, the last-valid-command value for k as it was before this update,
and the last-valid cache is then updated to the applied positions.
Preconditions: the arm is connected, the cache is initialized, and the
command contains at least one recognized joint key. -/
theorem sendActionRelayArm_fallback (lv : Vec7 ℚ) (obsRead : Option (Vec7 ℚ))
    (a : String → Option ℚ) (k : Fin 7)
    (hkeys : hasValidKeys a = true)
    (habs : ∀ s ∈ jointActionKeys k, a s = none) :
    ∃ p : Vec7 ℚ,
      sendActionRelayArm true (some lv) obsRead a = (.applied p, some p) ∧
      p.get k = lv.get k := by
  refine ⟨⟨pyGet a "shoulder_pan.pos" (pyGet a "joint_0.pos" lv.j0),
          pyGet a "shoulder_lift.pos" (pyGet a "joint_1.pos" lv.j1),
          pyGet a "elbow_flex.pos" (pyGet a "joint_2.pos" lv.j2),
          pyGet a "joint_3.pos" lv.j3,
          pyGet a "wrist_flex.pos" (pyGet a "joint_4.pos" lv.j4),
          pyGet a "wrist_roll.pos" (pyGet a "joint_5.pos" lv.j5),
          pyGet a "gripper.pos" (pyGet a "joint_6.pos" lv.j6)⟩, ?_, ?_⟩
  · simp [sendActionRelayArm, hkeys]
  · fin_cases k <;> simp_all [jointActionKeys, Vec7.get, pyGet]

/-- Witness for C1: an action carrying only joint_0.pos leaves joint 3 at the
cached value. -/
theorem sendActionRelayArm_fallback_witness :
    ∃ p : Vec7 ℚ,
      sendActionRelayArm true (some ⟨1, 2, 3, 4, 5, 6, 7⟩) none
          (fun s => if s = "joint_0.pos" then some 42 else none) =
        (.applied p, some p) ∧
      p.get 3 = (Vec7.mk (1:ℚ) 2 3 4 5 6 7).get 3 :=
  sendActionRelayArm_fallback ⟨1, 2, 3, 4, 5, 6, 7⟩ none
    (fun s => if s = "joint_0.pos" then some 42 else none) 3
    (by rfl)
    (by intro s hs; fin_cases hs; rfl)

/-- Inbound state of one relay cycle (host_broadcast.py lines 164-199): no
message pending (zmq.Again), a message whose JSON deserialization fails, or a
well-formed command payload. -/
inductive InboundMsg where
  | silent
  | malformed
  | command (data : String)
deriving Repr, DecidableEq

/-- Observable effects of one iteration of the relay main loop. -/
structure CycleTrace where
  warnedMalformed : Bool
  driverWrites : List String
  cmdBroadcast : Bool
  statusRead : Bool
  obsPushTried : Bool
  obsPushDelivered : Bool
  obsBroadcastTried : Bool
deriving Repr, DecidableEq

/-- One iteration of the relay main loop (host_broadcast.py lines 164-199).
On a malformed message the code logs a warning and executes continue, which
jumps to the next iteration: no driver write, no command broadcast, and also
no status read and no observation publication in that iteration.  Otherwise
the observation is read and sent on the observation PUSH socket (non-blocking;
a zmq.Again there is caught and only drops that send) and then, independently,
on the broadcast PUB socket.  pushOk models whether the PUSH send finds a
ready peer. -/
def relayCycle (msg : InboundMsg) (pushOk : Bool) : CycleTrace :=
  match msg with
  | .malformed =>
    { warnedMalformed := true, driverWrites := [], cmdBroadcast := false,
      statusRead := false, obsPushTried := false, obsPushDelivered := false,
      obsBroadcastTried := false }
  | .command d =>
    { warnedMalformed := false, driverWrites := [d], cmdBroadcast := true,
      statusRead := true, obsPushTried := true, obsPushDelivered := pushOk,
      obsBroadcastTried := true }
  | .silent =>
    { warnedMalformed := false, driverWrites := [], cmdBroadcast := false,
      statusRead := true, obsPushTried := true, obsPushDelivered := pushOk,
      obsBroadcastTried := true }

/-- C2 counterexample: in the iteration that receives a malformed message the
code logs and causes no driver write, but — contrary to the claim — it does
not read the driver status and publishes on neither observation channel,
because the json.JSONDecodeError handler executes continue. -/
theorem relayCycle_malformed_counterexample :
    (relayCycle .malformed true).warnedMalformed = true ∧
    (relayCycle .malformed true).driverWrites = [] ∧
    (relayCycle .malformed true).statusRead = false ∧
    (relayCycle .malformed true).obsPushTried = false ∧
    (relayCycle .malformed true).obsBroadcastTried = false :=
  ⟨rfl, rfl, rfl, rfl, rfl⟩

/-- C2 amended: a malformed message is logged and skipped with no driver
write, but its iteration is aborted entirely — no status read and no
observation publication happen in that iteration.  In every iteration without
a malformed message the driver status is read and an observation send is
attempted on both the observation channel and the broadcast channel, the
broadcast attempt being independent of whether the observation-channel push
finds a ready peer. -/
theorem relayCycle_behavior (msg : InboundMsg) (pushOk : Bool) :
    (msg = .malformed →
      (relayCycle msg pushOk).warnedMalformed = true ∧
      (relayCycle msg pushOk).driverWrites = [] ∧
      (relayCycle msg pushOk).statusRead = false ∧
      (relayCycle msg pushOk).obsPushTried = false ∧
      (relayCycle msg pushOk).obsBroadcastTried = false) ∧
    (msg ≠ .malformed →
      (relayCycle msg pushOk).statusRead = true ∧
      (relayCycle msg pushOk).obsPushTried = true ∧
      (relayCycle msg pushOk).obsBroadcastTried = true ∧
      (relayCycle msg pushOk).obsPushDelivered = pushOk) := by
  cases msg <;> simp [relayCycle]

/-- Witness for the amended C2 theorem: the silent and malformed cycles at
concrete inputs. -/
theorem relayCycle_behavior_witness :
    ((relayCycle .silent false).statusRead = true ∧
      (relayCycle .silent false).obsPushTried = true ∧
      (relayCycle .silent false).obsBroadcastTried = true ∧
      (relayCycle .silent false).obsPushDelivered = false) ∧
    ((relayCycle .malformed true).warnedMalformed = true ∧
      (relayCycle .malformed true).driverWrites = [] ∧
      (relayCycle .malformed true).statusRead = false ∧
      (relayCycle .malformed true).obsPushTried = false ∧
      (relayCycle .malformed true).obsBroadcastTried = false) :=
  ⟨(relayCycle_behavior .silent false).2 (by simp),
   (relayCycle_behavior .malformed true).1 rfl⟩

/-- Per-motor diagnostic snapshot built by
ArmController.get_detailed_motor_status (motor_enable_listener.py lines
76-119); for the gripper the analogous dictionary from get_gripper_status
(lines 121-144) is embedded via gripperAsMotorStatus below.  The combined
convenience key named overheating in the Python dictionary is derived and
never read by needs_enable or show_status, so it is not modelled. -/
structure MotorStatus where
  motorNum : Nat
  enabled : Bool
  hasError : Bool
  collision : Bool
  stall : Bool
  driverOverheating : Bool
  motorOverheating : Bool
  overcurrent : Bool
  voltageLow : Bool
  voltageTooHigh : Bool
  driverFault : Bool
  motorFault : Bool
  communicationError : Bool
  watchdogTriggered : Bool
  emergencyStop : Bool
deriving Repr, DecidableEq, Inhabited

/-- ArmController.needs_enable (motor_enable_listener.py lines 156-181),
transcribed branch by branch. -/
def needsEnable (s : MotorStatus) : Bool :=
  if !s.enabled then true
  else if s.hasError || s.collision || s.stall then true
  else if s.driverOverheating || s.motorOverheating || s.overcurrent ||
      s.voltageLow || s.voltageTooHigh || s.driverFault || s.motorFault ||
      s.communicationError || s.watchdogTriggered || s.emergencyStop then true
  else false

/-- Disjunction of the thirteen fault flags consulted by needs_enable and by
the issue list of MotorEnableListener.show_status (motor_enable_listener.py
lines 611-643). -/
def anyFault (s : MotorStatus) : Bool :=
  s.hasError || s.collision || s.stall || s.driverOverheating ||
    s.motorOverheating || s.overcurrent || s.voltageLow || s.voltageTooHigh ||
    s.driverFault || s.motorFault || s.communicationError ||
    s.watchdogTriggered || s.emergencyStop

/-- Health classification of the spec data model. -/
inductive HealthClass where
  | healthy
  | needsEnableClass
  | zombie
deriving Repr, DecidableEq

/-- Classification packaged from the source logic: needs_enable returns true
for a disabled motor before looking at faults (motor_enable_listener.py
lines 158-160), and show_status marks a motor ZOMBIE exactly when it is
enabled and its issue list is nonempty (lines 645-648); an enabled motor with
no fault flag is reported healthy (line 707). -/
def classify (s : MotorStatus) : HealthClass :=
  if !s.enabled then .needsEnableClass
  else if anyFault s then .zombie
  else .healthy

/-- The needs_enable boolean agrees with the classification: it is false
exactly on healthy motors. -/
theorem needsEnable_eq_false_iff_healthy (s : MotorStatus) :
    needsEnable s = false ↔ classify s = .healthy := by
  cases h : s.enabled
  · simp [needsEnable, classify, h]
  · simp [needsEnable, classify, anyFault, h]
    tauto

/-- C3: a motor status with enabled and at least one fault flag set (in
particular enabled with collision) classifies as Zombie, hence never Healthy
and never NeedsEnable; a status with enabled false classifies as NeedsEnable;
a status with enabled and no fault flag set classifies as Healthy. -/
theorem classify_cases (s : MotorStatus) :
    (s.enabled = true → anyFault s = true →
      classify s = .zombie ∧ classify s ≠ .healthy ∧
      classify s ≠ .needsEnableClass) ∧
    (s.enabled = true → s.collision = true → classify s = .zombie) ∧
    (s.enabled = false → classify s = .needsEnableClass) ∧
    (s.enabled = true → anyFault s = false → classify s = .healthy) := by
  refine ⟨fun he hf => ?_, fun he hc => ?_, fun he => ?_, fun he hf => ?_⟩
  · simp [classify, he, hf]
  · simp [classify, anyFault, he, hc]
  · simp [classify, he]
  · simp [classify, he, hf]

/-- Witness for C3 at three concrete statuses: an enabled motor with a
collision flag (Zombie), a disabled motor (NeedsEnable), and an enabled
fault-free motor (Healthy). -/
theorem classify_cases_witness :
    (classify ⟨1, true, false, true, false, false, false, false, false,
        false, false, false, false, false, false⟩ = .zombie ∧
      classify ⟨1, true, false, true, false, false, false, false, false,
        false, false, false, false, false, false⟩ ≠ .healthy ∧
      classify ⟨1, true, false, true, false, false, false, false, false,
        false, false, false, false, false, false⟩ ≠ .needsEnableClass) ∧
    classify ⟨2, false, false, false, false, false, false, false, false,
      false, false, false, false, false, false⟩ = .needsEnableClass ∧
    classify ⟨3, true, false, false, false, false, false, false, false,
      false, false, false, false, false, false⟩ = .healthy :=
  ⟨(classify_cases _).1 rfl rfl,
   (classify_cases _).2.2.1 rfl,
   (classify_cases _).2.2.2 rfl rfl⟩

/-- Boolean test that the needle character list occurs at the head of the
haystack. -/
def leadsWith : List Char → List Char → Bool
  | [], _ => true
  | _ :: _, [] => false
  | a :: as, b :: bs => a == b && leadsWith as bs

/-- Boolean substring containment on character lists. -/
def charsContain (needle : List Char) : List Char → Bool
  | [] => needle.isEmpty
  | c :: rest => leadsWith needle (c :: rest) || charsContain needle rest

/-- Python substring test needle in hay, on the underlying characters. -/
def strContains (hay needle : String) : Bool := charsContain needle.data hay.data

/-- Python str.join with a comma separator, as used for reason_str in
ArmController._partial_enable_motors (motor_enable_listener.py line 307). -/
def joinComma : List String → String
  | [] => ""
  | [s] => s
  | s :: t :: rest => s ++ ", " ++ joinComma (t :: rest)

theorem leadsWith_refl (l : List Char) : leadsWith l l = true := by
  induction l with
  | nil => rfl
  | cons a as ih => simp [leadsWith, ih]

theorem charsContain_of_leadsWith {n h : List Char}
    (hl : leadsWith n h = true) : charsContain n h = true := by
  cases h with
  | nil => cases n with
    | nil => rfl
    | cons a as => simp [leadsWith] at hl
  | cons c rest => simp [charsContain, hl]

theorem leadsWith_append {n h : List Char} (s : List Char)
    (hl : leadsWith n h = true) : leadsWith n (h ++ s) = true := by
  induction n generalizing h with
  | nil => rfl
  | cons a as ih =>
    cases h with
    | nil => simp [leadsWith] at hl
    | cons b bs =>
      simp [leadsWith] at hl ⊢
      exact ⟨hl.1, ih hl.2⟩

theorem charsContain_append_left {n h : List Char} (s : List Char)
    (hc : charsContain n h = true) : charsContain n (h ++ s) = true := by
  induction h with
  | nil =>
    simp [charsContain] at hc
    subst hc
    cases s with
    | nil => rfl
    | cons c cs => simp [charsContain, leadsWith]
  | cons c rest ih =>
    simp [charsContain] at hc ⊢
    rcases hc with hc | hc
    · exact Or.inl (leadsWith_append s hc)
    · exact Or.inr (ih hc)

theorem charsContain_append_right {n : List Char} (h : List Char)
    {s : List Char} (hc : charsContain n s = true) :
    charsContain n (h ++ s) = true := by
  induction h with
  | nil => exact hc
  | cons c rest ih => simp [charsContain, ih]

/-- A member of a list of strings occurs as a substring of their
comma-separated join. -/
theorem strContains_joinComma {x : String} {l : List String} (hx : x ∈ l) :
    strContains (joinComma l) x = true := by
  induction l with
  | nil => cases hx
  | cons a t ih =>
    cases t with
    | nil =>
      rcases List.mem_singleton.mp hx with rfl
      exact charsContain_of_leadsWith (leadsWith_refl _)
    | cons b u =>
      rcases List.mem_cons.mp hx with rfl | hmem
      · show charsContain x.data ((x ++ ", " ++ joinComma (b :: u)).data) = true
        rw [show (x ++ ", " ++ joinComma (b :: u)).data =
              x.data ++ (", " ++ joinComma (b :: u)).data by
            simp [String.data_append]]
        exact charsContain_append_left _
          (charsContain_of_leadsWith (leadsWith_refl _))
      · show charsContain x.data ((a ++ ", " ++ joinComma (b :: u)).data) = true
        rw [show (a ++ ", " ++ joinComma (b :: u)).data =
              (a ++ ", ").data ++ (joinComma (b :: u)).data by
            simp [String.data_append]]
        exact charsContain_append_right _ (ih hmem)

/-- Reason tokens accumulated for a motor that needs fixing
(motor_enable_listener.py lines 275-305), in source order. -/
def reasonTokens (s : MotorStatus) : List String :=
  (if !s.enabled then ["disabled"] else []) ++
  (if s.hasError then ["error"] else []) ++
  (if s.collision then ["collision"] else []) ++
  (if s.stall then ["stall"] else []) ++
  (if s.driverOverheating then ["driver-hot"] else []) ++
  (if s.motorOverheating then ["motor-hot"] else []) ++
  (if s.overcurrent then ["overcurrent"] else []) ++
  (if s.voltageLow then ["low-volt"] else []) ++
  (if s.voltageTooHigh then ["high-volt"] else []) ++
  (if s.driverFault then ["driver-fault"] else []) ++
  (if s.motorFault then ["motor-fault"] else []) ++
  (if s.communicationError then ["comm-error"] else []) ++
  (if s.watchdogTriggered then ["watchdog"] else []) ++
  (if s.emergencyStop then ["e-stop"] else [])

/-- reason_str of motor_enable_listener.py line 307: the comma join of the
tokens, or unknown-issue when there are none. -/
def reasonStr (s : MotorStatus) : String :=
  if (reasonTokens s).isEmpty then "unknown-issue"
  else joinComma (reasonTokens s)

attribute [irreducible] reasonStr

/-- A collision flag puts the collision token into the reason string, so the
substring test of motor_enable_listener.py line 322 fires. -/
theorem strContains_reasonStr_collision {s : MotorStatus}
    (hc : s.collision = true) :
    strContains (reasonStr s) "collision" = true := by
  have hmem : "collision" ∈ reasonTokens s := by
    simp [reasonTokens, hc]
  have hne : (reasonTokens s).isEmpty = false :=
    List.isEmpty_eq_false.mpr (List.ne_nil_of_mem hmem)
  rw [reasonStr, hne]
  simp only [Bool.false_eq_true, if_false]
  exact strContains_joinComma hmem

/-- A motor-overheating flag puts the motor-hot token into the reason string,
so the substring test of motor_enable_listener.py line 323 fires. -/
theorem strContains_reasonStr_motorHot {s : MotorStatus}
    (hm : s.motorOverheating = true) :
    strContains (reasonStr s) "motor-hot" = true := by
  have hmem : "motor-hot" ∈ reasonTokens s := by
    simp [reasonTokens, hm]
  have hne : (reasonTokens s).isEmpty = false :=
    List.isEmpty_eq_false.mpr (List.ne_nil_of_mem hmem)
  rw [reasonStr, hne]
  simp only [Bool.false_eq_true, if_false]
  exact strContains_joinComma hmem

/-- Gripper status dictionary of ArmController.get_gripper_status
(motor_enable_listener.py lines 121-144): it carries only these flags, with
collision and stall hardcoded False; the combined overheating flag is present
in the dictionary but never read by needs_enable, whose .get lookups for the
per-driver overheating keys and the extended fault keys return the default
False on this dictionary. -/
structure GripperStatus where
  enabled : Bool
  hasError : Bool
  overheating : Bool
  overcurrent : Bool
  voltageLow : Bool
deriving Repr, DecidableEq

/-- View of the gripper dictionary through the keys needs_enable and the
partial-enable engine consult: absent keys read as False via dict.get. -/
def gripperAsMotorStatus (g : GripperStatus) : MotorStatus where
  motorNum := 7
  enabled := g.enabled
  hasError := g.hasError
  collision := false
  stall := false
  driverOverheating := false
  motorOverheating := false
  overcurrent := g.overcurrent
  voltageLow := g.voltageLow
  voltageTooHigh := false
  driverFault := false
  motorFault := false
  communicationError := false
  watchdogTriggered := false
  emergencyStop := false

/-- Driver write commands issued by the enable engine
(motor_enable_listener.py lines 183-538). -/
inductive DriverCall where
  | emergencyStopResume
  | jointConfigClear (jointNum : Nat)
  | disableArmMotor (motorNum : Nat)
  | enableArmMotor (motorNum : Nat)
  | enableArmAll
  | enablePiperAttempt
  | gripperCtrl (pos : ℤ) (effort : Nat) (code : Nat) (setZero : Nat)
  | motionCtrlMit
deriving Repr, DecidableEq

/-- Environment oracle for the enable engine: results of the successive
driver reads and EnablePiper attempts, indexed by call number per kind. -/
structure DriverWorld where
  armReads : Nat → List MotorStatus
  gripReads : Nat → Option GripperStatus
  enablePiperOk : Nat → Bool
  enabledCounts : Nat → Nat

/-- Position in each read/attempt stream of a DriverWorld. -/
structure Cursor where
  armIdx : Nat
  gripIdx : Nat
  epIdx : Nat
  ecIdx : Nat
deriving Repr, DecidableEq

/-- Cursor at engine entry. -/
def Cursor.start : Cursor := ⟨0, 0, 0, 0⟩

/-- One get_detailed_motor_status read. -/
def readArm (w : DriverWorld) (c : Cursor) : List MotorStatus × Cursor :=
  (w.armReads c.armIdx, { c with armIdx := c.armIdx + 1 })

/-- One get_gripper_status read (none when the read raised). -/
def readGrip (w : DriverWorld) (c : Cursor) : Option GripperStatus × Cursor :=
  (w.gripReads c.gripIdx, { c with gripIdx := c.gripIdx + 1 })

/-- One EnablePiper attempt result. -/
def callEnablePiper (w : DriverWorld) (c : Cursor) : Bool × Cursor :=
  (w.enablePiperOk c.epIdx, { c with epIdx := c.epIdx + 1 })

/-- One get_enable_status read, its enabled_count. -/
def readEnabledCount (w : DriverWorld) (c : Cursor) : Nat × Cursor :=
  (w.enabledCounts c.ecIdx, { c with ecIdx := c.ecIdx + 1 })

/-- get_all_motor_status (motor_enable_listener.py lines 146-154): the arm
statuses plus the gripper status when its read succeeded. -/
def getAllMotorStatus (w : DriverWorld) (c : Cursor) :
    List MotorStatus × Cursor :=
  let (arm, c1) := readArm w c
  let (g, c2) := readGrip w c1
  (arm ++ (g.map gripperAsMotorStatus).toList, c2)

/-- The while not EnablePiper() retry loop of _full_enable_motors
(motor_enable_listener.py lines 484-490): each condition evaluation issues
one EnablePiper attempt; the loop ends on a successful attempt or once the
attempt counter reaches maxA.  Returns the calls issued, the final attempt
counter and the cursor.  Called with fuel maxA + 1, which the termination
structure of the loop never exhausts. -/
def epLoop (w : DriverWorld) (maxA : Nat) : Nat → Nat → Cursor →
    List DriverCall × Nat × Cursor
  | 0, a, c => ([], a, c)
  | fuel + 1, a, c =>
    let (ok, c1) := callEnablePiper w c
    if ok then ([.enablePiperAttempt], a, c1)
    else if a < maxA then
      match epLoop w maxA fuel (a + 1) c1 with
      | (rest, fa, cf) => (.enablePiperAttempt :: rest, fa, cf)
    else ([.enablePiperAttempt], a, c1)

/-- ArmController._full_enable_motors (motor_enable_listener.py lines
469-538): clear the emergency stop and all joint errors, run the EnablePiper
retry loop, fall back to EnableArm(0xFF, 0x02) on exhaustion, run the
three-step gripper reset, then re-read the status; success (with a MIT-mode
restore write) exactly when all 6 arm motors and the gripper report enabled.
Returns (success, driver writes, cursor). -/
def fullEnableMotors (w : DriverWorld) (maxA : Nat) (c : Cursor) :
    Bool × List DriverCall × Cursor :=
  let (loopCalls, attempts, c1) := epLoop w maxA (maxA + 1) 0 c
  let fallback : List DriverCall :=
    if attempts ≥ maxA then [.enableArmAll] else []
  let gripSeq : List DriverCall :=
    [.gripperCtrl 0 1000 3 0, .gripperCtrl 0 1000 1 0, .gripperCtrl 0 1000 1 174]
  let (cnt, c2) := readEnabledCount w c1
  let (g, c3) := readGrip w c2
  let gEnabled := (g.map GripperStatus.enabled).getD false
  let calls := [DriverCall.emergencyStopResume, DriverCall.jointConfigClear 7] ++
    loopCalls ++ fallback ++ gripSeq
  if cnt = 6 ∧ gEnabled = true then (true, calls ++ [.motionCtrlMit], c3)
  else (false, calls, c3)

/-- Arm motors flagged for enabling by _partial_enable_motors
(motor_enable_listener.py lines 261-315): every non-gripper status with
needs_enable true, paired with its reason string. -/
def armMotorsToEnable (statuses : List MotorStatus) : List (Nat × String) :=
  (statuses.filter (fun s => s.motorNum ≠ 7 && needsEnable s)).map
    (fun s => (s.motorNum, reasonStr s))

/-- Gripper flagged for enabling (motor_enable_listener.py lines 309-312). -/
def gripperFlagged (statuses : List MotorStatus) : Bool :=
  statuses.any (fun s => s.motorNum == 7 && needsEnable s)

/-- Control-flow outcome of the diagnosis prefix of _partial_enable_motors
(motor_enable_listener.py lines 251-335). -/
inductive SelPhase where
  | noStatus
  | allHealthy
  | escalateFull
  | perMotor (arm : List (Nat × String)) (gripperFlag : Bool)
deriving Repr, DecidableEq

/-- Diagnosis decision of _partial_enable_motors: fail when no status could
be read; report success immediately when nothing needs enabling; escalate to
a full reset when any flagged arm motor carries a collision or motor-hot
reason (substring tests of lines 322-329); otherwise proceed to the per-motor
enable loop. -/
def selDecision (statuses : List MotorStatus) : SelPhase :=
  if statuses.isEmpty then .noStatus
  else
    let arm := armMotorsToEnable statuses
    let gflag := gripperFlagged statuses
    if arm.isEmpty && !gflag then .allHealthy
    else
      let collisionDetected := arm.any (fun pr => strContains pr.2 "collision")
      let thermalDetected := arm.any (fun pr => strContains pr.2 "motor-hot")
      if collisionDetected || thermalDetected then .escalateFull
      else .perMotor arm gflag

/-- One motor's enable retry loop (motor_enable_listener.py lines 386-423):
while attempts < maxA, issue EnableArm(motorNum, 0x02), re-read the detailed
status, and break successfully when the motor reads enabled with no
needs_enable issue.  Returns (broke out successfully, calls, cursor).  Called
with fuel maxA + 1, which the attempt counter never exhausts.  The source
indexes the status list as sts[motor_num - 1] guarded by
motor_num <= len(sts); driver data always has motor_num in 1..6. -/
def motorRetryLoop (w : DriverWorld) (maxA motorNum : Nat) :
    Nat → Nat → Cursor → Bool × List DriverCall × Cursor
  | 0, _, c => (false, [], c)
  | fuel + 1, a, c =>
    if a < maxA then
      let (sts, c1) := readArm w c
      if !sts.isEmpty && decide (motorNum ≤ sts.length) &&
          (let m := sts.getD (motorNum - 1) default
           m.enabled && !needsEnable m) then
        (true, [.enableArmMotor motorNum], c1)
      else
        match motorRetryLoop w maxA motorNum fuel (a + 1) c1 with
        | (ok, calls, c2) => (ok, .enableArmMotor motorNum :: calls, c2)
    else (false, [], c)

/-- Result of iterating the per-motor enable loop over the flagged motors. -/
inductive EachResult where
  | finished (successCount : Nat) (calls : List DriverCall) (c : Cursor)
  | escalated (ok : Bool) (calls : List DriverCall) (c : Cursor)
deriving Repr

/-- The for loop over arm_motors_to_enable (motor_enable_listener.py lines
376-434): each motor gets a pre-status read and its retry loop; a motor that
exhausts its attempts makes the whole function return
_full_enable_motors(max_attempts) immediately. -/
def enableEach (w : DriverWorld) (maxA : Nat) :
    List (Nat × String) → Nat → Cursor → EachResult
  | [], k, c => .finished k [] c
  | (m, _) :: rest, k, c =>
    let (_, c0) := readArm w c
    match motorRetryLoop w maxA m (maxA + 1) 0 c0 with
    | (true, calls, c1) =>
      match enableEach w maxA rest (k + 1) c1 with
      | .finished k2 calls2 c2 => .finished k2 (calls ++ calls2) c2
      | .escalated ok calls2 c2 => .escalated ok (calls ++ calls2) c2
    | (false, calls, c1) =>
      match fullEnableMotors w maxA c1 with
      | (ok, fCalls, c2) => .escalated ok (calls ++ fCalls) c2

/-- ArmController._partial_enable_motors (motor_enable_listener.py lines
251-467): diagnose, then either fail (no status), succeed with zero driver
writes (nothing flagged), escalate to _full_enable_motors (collision or
motor-overheating reason), or clear errors aggressively and enable the
flagged motors one by one, the gripper last, restoring MIT mode when every
flagged motor came up.  Returns (success, driver writes, cursor). -/
def selEnableMotors (w : DriverWorld) (maxA : Nat) (c : Cursor) :
    Bool × List DriverCall × Cursor :=
  let (statuses, c1) := getAllMotorStatus w c
  match selDecision statuses with
  | .noStatus => (false, [], c1)
  | .allHealthy => (true, [], c1)
  | .escalateFull => fullEnableMotors w maxA c1
  | .perMotor arm gflag =>
    let nums := arm.map Prod.fst
    let clearCalls : List DriverCall :=
      if nums.isEmpty then []
      else
        [DriverCall.emergencyStopResume] ++
          nums.map DriverCall.jointConfigClear ++
          [DriverCall.jointConfigClear 7] ++
          nums.flatMap
            (fun m => [DriverCall.disableArmMotor m, DriverCall.jointConfigClear m])
    let total := arm.length + (if gflag then 1 else 0)
    match enableEach w maxA arm 0 c1 with
    | .escalated ok calls c2 => (ok, clearCalls ++ calls, c2)
    | .finished k calls c2 =>
      let (k2, gCalls, c3) :=
        if gflag then
          let (g, cg) := readGrip w c2
          let gOk := (g.map GripperStatus.enabled).getD false
          (k + (if gOk then 1 else 0),
            [DriverCall.gripperCtrl 0 1000 3 0], cg)
        else (k, [], c2)
      let (_, c4) := readEnabledCount w c3
      let (_, c5) := readGrip w c4
      if k2 = total then
        (true, clearCalls ++ calls ++ gCalls ++ [.motionCtrlMit], c5)
      else (false, clearCalls ++ calls ++ gCalls, c5)

/-- ArmController.enable_motors (motor_enable_listener.py lines 229-249):
dispatch on partial_enable between the selective and the full engine; fail
immediately when the arm is not connected.  Returns the success flag and the
driver writes performed. -/
def enableMotorsEngine (connected selective : Bool) (maxA : Nat)
    (w : DriverWorld) : Bool × List DriverCall :=
  if !connected then (false, [])
  else if selective then
    match selEnableMotors w maxA Cursor.start with
    | (ok, calls, _) => (ok, calls)
  else
    match fullEnableMotors w maxA Cursor.start with
    | (ok, calls, _) => (ok, calls)

/-- Diagnosis escalation: a flagged arm joint motor whose status carries a
collision or motor-overheating fault forces the escalateFull branch of the
diagnosis decision. -/
theorem selDecision_escalates (statuses : List MotorStatus) (s : MotorStatus)
    (hmem : s ∈ statuses) (h7 : s.motorNum ≠ 7) (hneed : needsEnable s = true)
    (hflag : s.collision = true ∨ s.motorOverheating = true) :
    selDecision statuses = .escalateFull := by
  have hpair : (s.motorNum, reasonStr s) ∈ armMotorsToEnable statuses := by
    refine List.mem_map.mpr ⟨s, List.mem_filter.mpr ⟨hmem, ?_⟩, rfl⟩
    simp [h7, hneed]
  have hne : statuses.isEmpty = false :=
    List.isEmpty_eq_false.mpr (List.ne_nil_of_mem hmem)
  have harmne : (armMotorsToEnable statuses).isEmpty = false :=
    List.isEmpty_eq_false.mpr (List.ne_nil_of_mem hpair)
  have hdetect :
      ((armMotorsToEnable statuses).any
          (fun pr => strContains pr.2 "collision") ||
        (armMotorsToEnable statuses).any
          (fun pr => strContains pr.2 "motor-hot")) = true := by
    rcases hflag with hc | hm
    · have h1 : (armMotorsToEnable statuses).any
          (fun pr => strContains pr.2 "collision") = true :=
        List.any_eq_true.mpr
          ⟨(s.motorNum, reasonStr s), hpair, strContains_reasonStr_collision hc⟩
      simp [h1]
    · have h1 : (armMotorsToEnable statuses).any
          (fun pr => strContains pr.2 "motor-hot") = true :=
        List.any_eq_true.mpr
          ⟨(s.motorNum, reasonStr s), hpair, strContains_reasonStr_motorHot hm⟩
      simp [h1]
  unfold selDecision
  simp [hne, harmne, hdetect]

/-- C4: for every enable request processed in partial mode, if any arm joint
motor (motor number not 7) needing enable carries a fault set that includes
collision or motor-overheating, the engine performs a full reset: the
diagnosis decides escalateFull and the selective engine call returns exactly
what the _full_enable_motors routine returns from the post-diagnosis cursor,
so the final mode is FullReset regardless of the requested mode. -/
theorem partialMode_escalates_to_fullReset (w : DriverWorld) (maxA : Nat)
    (s : MotorStatus) (hs : s ∈ w.armReads 0) (h7 : s.motorNum ≠ 7)
    (hneed : needsEnable s = true)
    (hflag : s.collision = true ∨ s.motorOverheating = true) :
    selDecision
        (w.armReads 0 ++ ((w.gripReads 0).map gripperAsMotorStatus).toList) =
      .escalateFull ∧
    selEnableMotors w maxA Cursor.start = fullEnableMotors w maxA ⟨1, 1, 0, 0⟩ := by
  have hdec : selDecision
      (w.armReads 0 ++ ((w.gripReads 0).map gripperAsMotorStatus).toList) =
      .escalateFull :=
    selDecision_escalates _ s (List.mem_append_left _ hs) h7 hneed hflag
  refine ⟨hdec, ?_⟩
  have hall : getAllMotorStatus w Cursor.start =
      (w.armReads 0 ++ ((w.gripReads 0).map gripperAsMotorStatus).toList,
        ⟨1, 1, 0, 0⟩) := rfl
  unfold selEnableMotors
  simp only [hall, hdec]

/-- Status of an enabled arm motor reporting a collision fault. -/
def collisionMotor : MotorStatus :=
  ⟨1, true, false, true, false, false, false, false, false, false, false,
    false, false, false, false⟩

/-- Driver environment whose first diagnosis read shows the collision
motor. -/
def collisionWorld : DriverWorld where
  armReads := fun _ => [collisionMotor]
  gripReads := fun _ => none
  enablePiperOk := fun _ => true
  enabledCounts := fun _ => 6

/-- Witness for C4: a partial-mode request in the collision environment
escalates to a full reset. -/
theorem partialMode_escalates_to_fullReset_witness :
    selDecision
        (collisionWorld.armReads 0 ++
          ((collisionWorld.gripReads 0).map gripperAsMotorStatus).toList) =
      .escalateFull ∧
    selEnableMotors collisionWorld 100 Cursor.start =
      fullEnableMotors collisionWorld 100 ⟨1, 1, 0, 0⟩ :=
  partialMode_escalates_to_fullReset collisionWorld 100 collisionMotor
    (List.mem_singleton.mpr rfl) (by decide) (by decide) (Or.inl rfl)

/-- Status of a healthy (enabled, fault-free) arm motor n. -/
def healthyMotor (n : Nat) : MotorStatus :=
  ⟨n, true, false, false, false, false, false, false, false, false, false,
    false, false, false, false⟩

/-- Healthy (enabled, fault-free) gripper status. -/
def healthyGripper : GripperStatus := ⟨true, false, false, false, false⟩

/-- Driver environment of an arm whose 6 joint motors and gripper are all
healthy and whose driver reads behave ideally. -/
def healthyWorld : DriverWorld where
  armReads := fun _ =>
    [healthyMotor 1, healthyMotor 2, healthyMotor 3, healthyMotor 4,
      healthyMotor 5, healthyMotor 6]
  gripReads := fun _ => some healthyGripper
  enablePiperOk := fun _ => true
  enabledCounts := fun _ => 6

/-- C9 counterexample: invoking the engine in full mode on an arm whose 6
joint motors and gripper are all Healthy still performs driver writes (the
emergency-stop clear comes first), because _full_enable_motors never
diagnoses; so the claim quantified over every invocation fails. -/
theorem fullMode_on_healthy_writes_counterexample :
    classify (healthyMotor 1) = .healthy ∧
    classify (healthyMotor 2) = .healthy ∧
    classify (healthyMotor 3) = .healthy ∧
    classify (healthyMotor 4) = .healthy ∧
    classify (healthyMotor 5) = .healthy ∧
    classify (healthyMotor 6) = .healthy ∧
    classify (gripperAsMotorStatus healthyGripper) = .healthy ∧
    healthyWorld.armReads 0 =
      [healthyMotor 1, healthyMotor 2, healthyMotor 3, healthyMotor 4,
        healthyMotor 5, healthyMotor 6] ∧
    healthyWorld.gripReads 0 = some healthyGripper ∧
    (enableMotorsEngine true false 100 healthyWorld).2 ≠ [] ∧
    DriverCall.emergencyStopResume ∈ (enableMotorsEngine true false 100 healthyWorld).2 := by
  decide

/-- Any motor classified healthy has needs_enable false. -/
theorem needsEnable_false_of_healthy {x : MotorStatus}
    (hx : classify x = .healthy) : needsEnable x = false :=
  (needsEnable_eq_false_iff_healthy x).mpr hx

/-- C9 amended: invoking the engine in partial (selective) mode on an arm
whose joint motors and gripper all classify Healthy reports success
immediately after the diagnosis reads and performs zero driver write calls;
in full mode the engine resets unconditionally and does write (see the
counterexample), so the claim holds for the mode that diagnoses. -/
theorem selectiveMode_healthy_noop (w : DriverWorld) (maxA : Nat)
    (g : GripperStatus) (hgr : w.gripReads 0 = some g)
    (harm : ∀ s ∈ w.armReads 0, classify s = .healthy)
    (hg : classify (gripperAsMotorStatus g) = .healthy) :
    selEnableMotors w maxA Cursor.start = (true, [], ⟨1, 1, 0, 0⟩) ∧
    enableMotorsEngine true true maxA w = (true, []) := by
  have hall : getAllMotorStatus w Cursor.start =
      (w.armReads 0 ++ [gripperAsMotorStatus g], ⟨1, 1, 0, 0⟩) := by
    rw [show getAllMotorStatus w Cursor.start =
          (w.armReads 0 ++ ((w.gripReads 0).map gripperAsMotorStatus).toList,
            ⟨1, 1, 0, 0⟩) from rfl, hgr]
    rfl
  have hneA : ∀ x ∈ w.armReads 0 ++ [gripperAsMotorStatus g],
      needsEnable x = false := by
    intro x hx
    rcases List.mem_append.mp hx with hx | hx
    · exact needsEnable_false_of_healthy (harm x hx)
    · rcases List.mem_singleton.mp hx with rfl
      exact needsEnable_false_of_healthy hg
  have hfilter : armMotorsToEnable (w.armReads 0 ++ [gripperAsMotorStatus g]) = [] := by
    unfold armMotorsToEnable
    rw [List.filter_eq_nil_iff.mpr]
    · rfl
    · intro x hx
      simp [hneA x hx]
  have hgf : gripperFlagged (w.armReads 0 ++ [gripperAsMotorStatus g]) = false := by
    unfold gripperFlagged
    rw [List.any_eq_false.mpr]
    intro x hx
    simp [hneA x hx]
  have hno : (w.armReads 0 ++ [gripperAsMotorStatus g]).isEmpty = false := by
    simp
  have hdec : selDecision (w.armReads 0 ++ [gripperAsMotorStatus g]) =
      .allHealthy := by
    unfold selDecision
    simp [hno, hfilter, hgf]
  have hsel : selEnableMotors w maxA Cursor.start = (true, [], ⟨1, 1, 0, 0⟩) := by
    unfold selEnableMotors
    simp only [hall, hdec]
  refine ⟨hsel, ?_⟩
  unfold enableMotorsEngine
  simp [hsel]

/-- Witness for the amended C9 theorem in the healthy environment. -/
theorem selectiveMode_healthy_noop_witness :
    selEnableMotors healthyWorld 100 Cursor.start = (true, [], ⟨1, 1, 0, 0⟩) ∧
    enableMotorsEngine true true 100 healthyWorld = (true, []) :=
  selectiveMode_healthy_noop healthyWorld 100 healthyGripper rfl
    (by intro s hs
        simp only [healthyWorld, List.mem_cons, List.not_mem_nil, or_false] at hs
        rcases hs with rfl | rfl | rfl | rfl | rfl | rfl <;> decide)
    (by decide)
